import Mathlib

/-!
Shallow embedding of the CNPJ identifier codec and company/partner
repository from `database/postgresql.py`, together with theorems checking
the specification's claims about it.

Strings are modelled as `List Char`.  Python's `str.zfill`, slicing and
`zip` truncation are reproduced exactly.  The row-source collaborator
(psycopg2) is modelled as a pure function from the query parameters to the
list of rows it returns; raised exceptions are modelled with `Except`.
-/

namespace CnpjDb

/-- Value of a decimal digit character, modelling Python `int(c)` on a
single digit character. -/
def digitVal (c : Char) : Nat := c.toNat - 48

/-- Python `s.zfill(n)`: left-pad with `'0'` to length at least `n`
(never truncates). -/
def zfill (n : Nat) (s : List Char) : List Char :=
  List.replicate (n - s.length) '0' ++ s

/-- Embedding of `_cnpj_only_digits`: strip every non-digit character
(`re.sub(r"[^\d]", "", cnpj)`); return the empty string unchanged,
otherwise `zfill(14)`. -/
def cnpjOnlyDigits (cnpj : List Char) : List Char :=
  let only_digits := cnpj.filter Char.isDigit
  if only_digits = [] then only_digits else zfill 14 only_digits

/-- The weight tuple `(6, 5, 4, 3, 2, 9, 8, 7, 6, 5, 4, 3, 2)` of
`_calculate_cnpj_dv_digit`. -/
def weightsFull : List Nat := [6, 5, 4, 3, 2, 9, 8, 7, 6, 5, 4, 3, 2]

/-- Embedding of `_calculate_cnpj_dv_digit`: drop the first weight when no
first digit is supplied, weight the digits of `cnpj_without_dv ++
first_digit` (Python `zip` truncates to the shorter sequence, as
`List.zipWith` does), sum, reduce mod 11, and render the resulting check
digit (`str(11 - r)` is `Nat.toDigits 10`).  The Python default argument
`first_digit=""` is passed explicitly by the callers here. -/
def calculateCnpjDvDigit (cnpj_without_dv : List Char)
    (first_digit : List Char) : List Char :=
  let weights := if first_digit = [] then weightsFull.tail else weightsFull
  let cnpj_to_weight := cnpj_without_dv ++ first_digit
  let weighted_digits :=
    List.zipWith (fun num weight => digitVal num * weight) cnpj_to_weight weights
  let sum_remainder := weighted_digits.sum % 11
  if sum_remainder < 2 then ['0'] else Nat.toDigits 10 (11 - sum_remainder)

/-- Embedding of `_generate_cnpj_dv`: the two check digits, computed
sequentially. -/
def generateCnpjDv (cnpj_without_dv : List Char) : List Char :=
  let first_digit := calculateCnpjDvDigit cnpj_without_dv []
  let second_digit := calculateCnpjDvDigit cnpj_without_dv first_digit
  first_digit ++ second_digit

/-- Number of digit characters of the raw input, before any padding. -/
def countDigits (s : List Char) : Nat := (s.filter Char.isDigit).length

/-- Embedding of `_is_valid_cnpj`: false on an empty digit string or more
than 14 digits, otherwise compare the last two digits (`[-2:]`) with the
check digits recomputed from the rest (`[:-2]`). -/
def isValidCnpj (cnpj : List Char) : Bool :=
  let d := cnpjOnlyDigits cnpj
  if d = [] ∨ d.length > 14 then false
  else decide (d.drop (d.length - 2) = generateCnpjDv (d.take (d.length - 2)))

/-- Embedding of `_split_cnpj`: slices `[:8]`, `[8:12]`, `[12:]` of the
normalized form. -/
def splitCnpj (cnpj : List Char) : List Char × List Char × List Char :=
  let d := cnpjOnlyDigits cnpj
  (d.take 8, (d.drop 8).take 4, d.drop 12)

/-- Embedding of `_unsplit_cnpj`: zero-pad each component to its fixed
width and concatenate. -/
def unsplitCnpj (cnpj_basico cnpj_ordem cnpj_dv : List Char) : List Char :=
  zfill 8 cnpj_basico ++ zfill 4 cnpj_ordem ++ zfill 2 cnpj_dv

/-- Embedding of `_format_full_cnpj`: the mask `{}.{}.{}/{}-{}` over the
slices `[:2]`, `[2:5]`, `[5:8]`, `[8:12]`, `[12:]` of the normalized
form. -/
def formatFullCnpj (cnpj : List Char) : List Char :=
  let d := cnpjOnlyDigits cnpj
  d.take 2 ++ ['.'] ++ (d.drop 2).take 3 ++ ['.'] ++ (d.drop 5).take 3
    ++ ['/'] ++ (d.drop 8).take 4 ++ ['-'] ++ d.drop 12

/-- A dynamically typed Python row value, as seen by `_always_str_or_none`:
a string, `None`, or any other value carried with its `str()` rendering. -/
inductive PyValue where
  | pyStr (s : String)
  | pyNone
  | other (strForm : String)
deriving DecidableEq

/-- Embedding of `_always_str_or_none`: the literal string `"None"`, the
empty string and `None` all map to `None`; a non-string value maps to its
`str()` form; any other string passes through unchanged. -/
def alwaysStrOrNone : PyValue → Option String
  | .pyStr s => if s = "None" ∨ s = "" then none else some s
  | .pyNone => none
  | .other strForm => some strForm

/-- Modelled from the spec: the `Company` record of the missing
`companies` module, holding the identifier fields re-derived from the
input plus the descriptive attributes taken positionally from the row
(section 4.3 of the spec); only the fields assigned by
`_format_company_data` appear. -/
structure Company where
  cnpj_basico : List Char
  cnpj_ordem : List Char
  cnpj_dv : List Char
  cnpj_completo : List Char
  cnpj_completo_apenas_numeros : List Char
  identificador_matriz_filial : Option String
  nome_fantasia : Option String
  situacao_cadastral : Option String
  data_situacao_cadastral : Option String
  motivo_situacao_cadastral : Option String
  nome_cidade_exterior : Option String
  data_inicio_atividade : Option String
  cnae_fiscal_secundario : Option String
  tipo_logradouro : Option String
  logradouro : Option String
  numero : Option String
  complemento : Option String
  bairro : Option String
  cep : Option String
  uf : Option String
  ddd_telefone_1 : Option String
  ddd_telefone_2 : Option String
  ddd_telefone_fax : Option String
  correio_eletronico : Option String
  situacao_especial : Option String
  data_situacao_especial : Option String
  pais : Option String
  municipio : Option String
  razao_social : Option String
  natureza_juridica : Option String
  qualificacao_do_responsavel : Option String
  capital_social : Option String
  porte : Option String
  ente_federativo_responsavel : Option String
  opcao_pelo_simples : Option String
  data_opcao_pelo_simples : Option String
  data_exclusao_pelo_simples : Option String
  opcao_pelo_mei : Option String
  data_opcao_pelo_mei : Option String
  data_exclusao_pelo_mei : Option String
  cnae : Option String
deriving DecidableEq

/-- Modelled from the spec: the `Partner` record of the missing
`companies` module (section 4.3 of the spec); only the fields assigned by
`_format_partner_data` appear. -/
structure Partner where
  cnpj_basico : List Char
  cnpj_ordem : List Char
  cnpj_dv : List Char
  cnpj_completo : List Char
  cnpj_completo_apenas_numeros : List Char
  identificador_socio : Option String
  razao_social : Option String
  cnpj_cpf_socio : Option String
  qualificacao_socio : Option String
  data_entrada_sociedade : Option String
  pais_socio_estrangeiro : Option String
  numero_cpf_representante_legal : Option String
  nome_representante_legal : Option String
  qualificacao_representante_legal : Option String
  faixa_etaria : Option String
deriving DecidableEq

/-- Record construction of `_format_company_data`: the identifier fields
re-derived from the input `cnpj`, the descriptive fields read
positionally from the row after the uniform `_always_str_or_none`
coercion. -/
def companyOf (data : List PyValue) (cnpj : List Char) : Company :=
  let cnpj_only_digits := cnpjOnlyDigits cnpj
  let s := splitCnpj cnpj
  let full_cnpj := formatFullCnpj cnpj
  let formatted_data := data.map alwaysStrOrNone
  { cnpj_basico := s.1
    cnpj_ordem := s.2.1
    cnpj_dv := s.2.2
    cnpj_completo := full_cnpj
    cnpj_completo_apenas_numeros := cnpj_only_digits
    identificador_matriz_filial := formatted_data.getD 3 none
    nome_fantasia := formatted_data.getD 4 none
    situacao_cadastral := formatted_data.getD 5 none
    data_situacao_cadastral := formatted_data.getD 6 none
    motivo_situacao_cadastral := formatted_data.getD 7 none
    nome_cidade_exterior := formatted_data.getD 8 none
    data_inicio_atividade := formatted_data.getD 9 none
    cnae_fiscal_secundario := formatted_data.getD 10 none
    tipo_logradouro := formatted_data.getD 11 none
    logradouro := formatted_data.getD 12 none
    numero := formatted_data.getD 13 none
    complemento := formatted_data.getD 14 none
    bairro := formatted_data.getD 15 none
    cep := formatted_data.getD 16 none
    uf := formatted_data.getD 17 none
    ddd_telefone_1 := formatted_data.getD 18 none
    ddd_telefone_2 := formatted_data.getD 19 none
    ddd_telefone_fax := formatted_data.getD 20 none
    correio_eletronico := formatted_data.getD 21 none
    situacao_especial := formatted_data.getD 22 none
    data_situacao_especial := formatted_data.getD 23 none
    pais := formatted_data.getD 24 none
    municipio := formatted_data.getD 25 none
    razao_social := formatted_data.getD 26 none
    natureza_juridica := formatted_data.getD 27 none
    qualificacao_do_responsavel := formatted_data.getD 28 none
    capital_social := formatted_data.getD 29 none
    porte := formatted_data.getD 30 none
    ente_federativo_responsavel := formatted_data.getD 31 none
    opcao_pelo_simples := formatted_data.getD 32 none
    data_opcao_pelo_simples := formatted_data.getD 33 none
    data_exclusao_pelo_simples := formatted_data.getD 34 none
    opcao_pelo_mei := formatted_data.getD 35 none
    data_opcao_pelo_mei := formatted_data.getD 36 none
    data_exclusao_pelo_mei := formatted_data.getD 37 none
    cnae := formatted_data.getD 38 none }

/-- Embedding of `_format_company_data`.  Positional access
`formatted_data[38]` raises `IndexError` on a row shorter than 39
entries; that fallibility is modelled with `Option` (the guard is exactly
the largest index used plus one). -/
def formatCompanyData (data : List PyValue) (cnpj : List Char) : Option Company :=
  if 39 ≤ data.length then some (companyOf data cnpj) else none

/-- Record construction of `_format_partner_data`, as for `companyOf`. -/
def partnerOf (data : List PyValue) (cnpj : List Char) : Partner :=
  let cnpj_only_digits := cnpjOnlyDigits cnpj
  let s := splitCnpj cnpj
  let full_cnpj := formatFullCnpj cnpj
  let formatted_data := data.map alwaysStrOrNone
  { cnpj_basico := s.1
    cnpj_ordem := s.2.1
    cnpj_dv := s.2.2
    cnpj_completo := full_cnpj
    cnpj_completo_apenas_numeros := cnpj_only_digits
    identificador_socio := formatted_data.getD 1 none
    razao_social := formatted_data.getD 2 none
    cnpj_cpf_socio := formatted_data.getD 3 none
    qualificacao_socio := formatted_data.getD 4 none
    data_entrada_sociedade := formatted_data.getD 5 none
    pais_socio_estrangeiro := formatted_data.getD 6 none
    numero_cpf_representante_legal := formatted_data.getD 7 none
    nome_representante_legal := formatted_data.getD 8 none
    qualificacao_representante_legal := formatted_data.getD 9 none
    faixa_etaria := formatted_data.getD 10 none }

/-- Embedding of `_format_partner_data`; positional access up to index 10
needs a row of at least 11 entries, modelled with `Option` as for
`formatCompanyData`. -/
def formatPartnerData (data : List PyValue) (cnpj : List Char) : Option Partner :=
  if 11 ≤ data.length then some (partnerOf data cnpj) else none

/-- Errors a lookup can raise: `InvalidCNPJException` from validation, or
the `IndexError` of positional row access. -/
inductive LookupError where
  | invalidCNPJ
  | rowIndexError
deriving DecidableEq

/-- The named parameters of the `get_company` query: the row source is
filtered on `(cnpj_basico, cnpj_ordem, cnpj_dv)` exact match. -/
structure CompanyQuery where
  cnpj_basico : List Char
  cnpj_ordem : List Char
  cnpj_dv : List Char
deriving DecidableEq

/-- The named parameters of the `get_partners` query: the row source is
filtered on `cnpj_basico` only. -/
structure PartnersQuery where
  cnpj_basico : List Char
deriving DecidableEq

/-- The named-parameter dictionary built by `get_company` before the
lookup: `(cnpj_basico, cnpj_ordem, cnpj_dv)` from the split
identifier. -/
def companyQueryData (cnpj : List Char) : CompanyQuery :=
  let s := splitCnpj cnpj
  ⟨s.1, s.2.1, s.2.2⟩

/-- The named-parameter dictionary built by `get_partners` before the
lookup: only `cnpj_basico` from the split identifier. -/
def partnersQueryData (cnpj : List Char) : PartnersQuery :=
  let s := splitCnpj cnpj
  ⟨s.1⟩

/-- Left-to-right mapping of rows through `formatPartnerData`, modelling
the list comprehension of `get_partners`: the first `IndexError` aborts
the whole call. -/
def formatAllPartners (cnpj : List Char) : List (List PyValue) → Option (List Partner)
  | [] => some []
  | r :: rs =>
    match formatPartnerData r cnpj, formatAllPartners cnpj rs with
    | some p, some ps => some (p :: ps)
    | _, _ => none

/-- Embedding of `get_company`.  The row source `sel` stands for
`_select` applied to the fixed query text: a function from the named
parameters to the returned rows. -/
def getCompany (sel : CompanyQuery → List (List PyValue)) (cnpj : List Char) :
    Except LookupError (Option Company) :=
  if ¬ isValidCnpj cnpj then .error .invalidCNPJ
  else
    let result := sel (companyQueryData cnpj)
    match result with
    | [] => .ok none
    | r :: _ =>
      match formatCompanyData r cnpj with
      | some c => .ok (some c)
      | none => .error .rowIndexError

/-- Embedding of `get_partners`: same validation, lookup keyed by the
base component only, result paired with the row count. -/
def getPartners (sel : PartnersQuery → List (List PyValue)) (cnpj : List Char) :
    Except LookupError (Nat × List Partner) :=
  if ¬ isValidCnpj cnpj then .error .invalidCNPJ
  else
    let results := sel (partnersQueryData cnpj)
    match formatAllPartners cnpj results with
    | some partners => .ok (results.length, partners)
    | none => .error .rowIndexError

/-- Rendering of one check digit from a mod-11 remainder, as the spec
words it: `"0"` when the remainder is below 2, the decimal digit
`11 - remainder` otherwise. -/
def specDvChar (r : Nat) : Char :=
  if r < 2 then '0' else Char.ofNat (48 + (11 - r))

/-- Transcription of the SPEC's wording of the check-digit algorithm, for
comparison with `generateCnpjDv`: first digit from weights
`(5,4,3,2,9,8,7,6,5,4,3,2)` over the 12 digits most-significant first,
summed, mod 11, `"0"` when the remainder is below 2 and the decimal digit
`11 - remainder` otherwise; second digit from weights
`(6,5,4,3,2,9,8,7,6,5,4,3,2)` over `base12 ++ firstDigit` under the same
rule. -/
def specCheckDigits (base12 : List Char) : List Char :=
  let w1 : List Nat := [5, 4, 3, 2, 9, 8, 7, 6, 5, 4, 3, 2]
  let r1 := (List.zipWith (fun c w => digitVal c * w) base12 w1).sum % 11
  let d1 : Char := specDvChar r1
  let w2 : List Nat := [6, 5, 4, 3, 2, 9, 8, 7, 6, 5, 4, 3, 2]
  let r2 := (List.zipWith (fun c w => digitVal c * w) (base12 ++ [d1]) w2).sum % 11
  let d2 : Char := specDvChar r2
  [d1, d2]

theorem zfill_length (n : Nat) (s : List Char) : (zfill n s).length = max n s.length := by
  simp [zfill]
  omega

theorem zfill_of_length (n : Nat) (s : List Char) (h : s.length = n) : zfill n s = s := by
  simp [zfill, h]

theorem toDigits_single :
    ∀ n, n < 10 → 0 < n → Nat.toDigits 10 n = [Char.ofNat (48 + n)] := by
  decide

theorem calcDvDigit_eq (s fd : List Char) :
    calculateCnpjDvDigit s fd =
      [specDvChar ((List.zipWith (fun c w => digitVal c * w) (s ++ fd)
        (if fd = [] then weightsFull.tail else weightsFull)).sum % 11)] := by
  unfold calculateCnpjDvDigit specDvChar
  set r := (List.zipWith (fun c w => digitVal c * w) (s ++ fd)
    (if fd = [] then weightsFull.tail else weightsFull)).sum % 11 with hr
  by_cases h2 : r < 2
  · simp [h2]
  · have hlt : r < 11 := by
      rw [hr]
      exact Nat.mod_lt _ (by norm_num)
    rw [if_neg h2, if_neg h2, toDigits_single (11 - r) (by omega) (by omega)]

/-- C1: on every 12-digit string, the source's check-digit computation
(`_generate_cnpj_dv` with `_calculate_cnpj_dv_digit`) agrees with the
spec's description: weights `(5,4,3,2,9,8,7,6,5,4,3,2)` on the base,
mod 11 with the below-2 tie-break for the first digit, then weights
`(6,5,4,3,2,9,8,7,6,5,4,3,2)` on `base12 ++ firstDigit` for the
second. -/
theorem generateCnpjDv_eq_specCheckDigits (base12 : List Char)
    (_hlen : base12.length = 12) (_hdig : ∀ c ∈ base12, c.isDigit = true) :
    generateCnpjDv base12 = specCheckDigits base12 := by
  unfold generateCnpjDv specCheckDigits
  simp only [calcDvDigit_eq]
  simp [weightsFull]

/-- Witness for C1 at the concrete base `112223330001`. -/
theorem generateCnpjDv_eq_specCheckDigits_witness :
    generateCnpjDv ("112223330001".toList) = specCheckDigits ("112223330001".toList) :=
  generateCnpjDv_eq_specCheckDigits ("112223330001".toList) (by decide) (by decide)

/-- C2: for an input with at most 14 digit characters, `_is_valid_cnpj`
is true exactly when there is at least one digit and the last two
characters of the padded form equal the check digits recomputed from its
first 12 characters; any input with more than 14 digit characters is
invalid regardless of its check digits. -/
theorem isValidCnpj_spec (s : List Char) :
    (countDigits s ≤ 14 →
      (isValidCnpj s = true ↔
        1 ≤ countDigits s ∧
          (cnpjOnlyDigits s).drop 12 = generateCnpjDv ((cnpjOnlyDigits s).take 12)))
    ∧ (14 < countDigits s → isValidCnpj s = false) := by
  constructor
  · intro hle
    by_cases hf : s.filter Char.isDigit = []
    · have hd : cnpjOnlyDigits s = [] := by simp [cnpjOnlyDigits, hf]
      have hc : countDigits s = 0 := by simp [countDigits, hf]
      simp [isValidCnpj, hd, hc]
    · have hpos : 1 ≤ countDigits s := by
        have := List.length_pos.mpr hf
        unfold countDigits
        omega
      have hlen : (cnpjOnlyDigits s).length = 14 := by
        unfold countDigits at hle
        simp [cnpjOnlyDigits, hf, zfill_length]
        omega
      have hne : cnpjOnlyDigits s ≠ [] := by
        intro h
        rw [h] at hlen
        simp at hlen
      have hval : isValidCnpj s =
          decide ((cnpjOnlyDigits s).drop 12 = generateCnpjDv ((cnpjOnlyDigits s).take 12)) := by
        simp only [isValidCnpj]
        rw [hlen, if_neg (by simp [hne])]
      rw [hval, decide_eq_true_eq]
      exact (and_iff_right hpos).symm
  · intro hgt
    have hf : s.filter Char.isDigit ≠ [] := by
      intro h
      unfold countDigits at hgt
      rw [h] at hgt
      simp at hgt
    have hd : cnpjOnlyDigits s = s.filter Char.isDigit := by
      have h0 : 14 - (s.filter Char.isDigit).length = 0 := by
        unfold countDigits at hgt
        omega
      simp [cnpjOnlyDigits, hf, zfill, h0]
    simp only [isValidCnpj]
    rw [if_pos]
    right
    rw [hd]
    unfold countDigits at hgt
    omega

/-- Witness for C2 at a 15-digit input (invalid) and at the valid
identifier `11222333000181`. -/
theorem isValidCnpj_spec_witness :
    isValidCnpj ("123456789012345".toList) = false
    ∧ isValidCnpj ("11222333000181".toList) = true := by
  constructor
  · exact (isValidCnpj_spec ("123456789012345".toList)).2 (by decide)
  · exact ((isValidCnpj_spec ("11222333000181".toList)).1 (by decide)).mpr
      ⟨by decide, by decide⟩

/-- C4 counterexample: on a 15-digit input, `_cnpj_only_digits` returns
all 15 digits (`zfill` never truncates), so the output length is neither
0 nor 14. -/
theorem cnpjOnlyDigits_length_contract_counterexample :
    ¬ ((cnpjOnlyDigits ("123456789012345".toList)).length = 0
       ∨ (cnpjOnlyDigits ("123456789012345".toList)).length = 14) := by
  decide

/-- C4 amended: `_cnpj_only_digits` strips non-digits, returns the empty
string when no digit remains and otherwise the digits zero-padded on the
left to width 14; the output length is 0 or exactly 14 for inputs with at
most 14 digits, while an input with more than 14 digits comes back
unpadded with length equal to its digit count. -/
theorem cnpjOnlyDigits_spec_amended (s : List Char) :
    (countDigits s = 0 → cnpjOnlyDigits s = [])
    ∧ (1 ≤ countDigits s → cnpjOnlyDigits s = zfill 14 (s.filter Char.isDigit))
    ∧ (countDigits s ≤ 14 →
        (cnpjOnlyDigits s).length = 0 ∨ (cnpjOnlyDigits s).length = 14)
    ∧ (14 < countDigits s → (cnpjOnlyDigits s).length = countDigits s) := by
  refine ⟨?_, ?_, ?_, ?_⟩
  · intro h
    have hf : s.filter Char.isDigit = [] := by
      unfold countDigits at h
      exact List.length_eq_zero.mp h
    simp [cnpjOnlyDigits, hf]
  · intro h
    have hf : s.filter Char.isDigit ≠ [] := by
      intro hc
      unfold countDigits at h
      rw [hc] at h
      simp at h
    simp [cnpjOnlyDigits, hf]
  · intro h
    by_cases hf : s.filter Char.isDigit = []
    · left
      simp [cnpjOnlyDigits, hf]
    · right
      unfold countDigits at h
      simp [cnpjOnlyDigits, hf, zfill_length]
      omega
  · intro h
    have hf : s.filter Char.isDigit ≠ [] := by
      intro hc
      unfold countDigits at h
      rw [hc] at h
      simp at h
    have h0 : 14 - (s.filter Char.isDigit).length = 0 := by
      unfold countDigits at h
      omega
    simp [cnpjOnlyDigits, hf, zfill, h0, countDigits]

/-- Witness for the amended C4: a digit-free input maps to the empty
string, and the 15-digit input keeps length 15. -/
theorem cnpjOnlyDigits_spec_amended_witness :
    cnpjOnlyDigits ("abc".toList) = []
    ∧ (cnpjOnlyDigits ("123456789012345".toList)).length = 15 := by
  constructor
  · exact (cnpjOnlyDigits_spec_amended ("abc".toList)).1 (by decide)
  · have h := (cnpjOnlyDigits_spec_amended ("123456789012345".toList)).2.2.2 (by decide)
    rw [h]
    decide

/-- C5: on a nonempty digit string of length at most 14 (the strings
representable after padding), `_unsplit_cnpj` of `_split_cnpj` gives back
exactly `_cnpj_only_digits` of the input. -/
theorem unsplit_split_roundtrip (x : List Char)
    (hdig : ∀ c ∈ x, c.isDigit = true) (hne : x ≠ []) (hle : x.length ≤ 14) :
    unsplitCnpj (splitCnpj x).1 (splitCnpj x).2.1 (splitCnpj x).2.2 = cnpjOnlyDigits x := by
  have hfil : x.filter Char.isDigit = x := List.filter_eq_self.mpr hdig
  have hd : cnpjOnlyDigits x = zfill 14 x := by
    simp [cnpjOnlyDigits, hfil, hne]
  have hlen : (cnpjOnlyDigits x).length = 14 := by
    rw [hd, zfill_length]
    omega
  set d := cnpjOnlyDigits x with hdd
  have hsplit : splitCnpj x = (d.take 8, (d.drop 8).take 4, d.drop 12) := rfl
  rw [hsplit]
  unfold unsplitCnpj
  rw [zfill_of_length _ _ (by rw [List.length_take]; omega),
    zfill_of_length _ _ (by rw [List.length_take, List.length_drop]; omega),
    zfill_of_length _ _ (by rw [List.length_drop]; omega)]
  have h12 : d.drop 12 = (d.drop 8).drop 4 := by
    rw [List.drop_drop]
  rw [h12, List.append_assoc, List.take_append_drop, List.take_append_drop]

/-- Witness for C5 at the digit string `11222333000181`. -/
theorem unsplit_split_roundtrip_witness :
    unsplitCnpj (splitCnpj ("11222333000181".toList)).1
        (splitCnpj ("11222333000181".toList)).2.1
        (splitCnpj ("11222333000181".toList)).2.2
      = cnpjOnlyDigits ("11222333000181".toList) :=
  unsplit_split_roundtrip ("11222333000181".toList) (by decide) (by decide) (by decide)

/-- C10: the single character `"0"` has one digit (between 1 and 13), is
accepted by `_is_valid_cnpj` after zero-padding to fourteen zeros, whose
recomputed check digits are `"00"`: short inputs are not rejected for
being short. -/
theorem lenient_padding_validates :
    ∃ s : List Char, 1 ≤ countDigits s ∧ countDigits s ≤ 13 ∧ isValidCnpj s = true
      ∧ cnpjOnlyDigits s = List.replicate 14 '0'
      ∧ generateCnpjDv (List.replicate 12 '0') = ['0', '0'] :=
  ⟨['0'], by decide, by decide, by decide, by decide, by decide⟩

theorem getD_map_of_lt {α β : Type} (f : α → β) (l : List α) (k : Nat) (d : α)
    (hk : k < l.length) :
    (l.map f).getD k (f d) = f (l.getD k d) := by
  induction l generalizing k with
  | nil => simp at hk
  | cons a t ih =>
    cases k with
    | zero => simp
    | succ n =>
      simp only [List.map_cons, List.getD_cons_succ]
      exact ih n (by simpa using hk)

/-- C6: `_always_str_or_none` sends the literal string `"None"`, the
empty string and `None` to `None`, stringifies every non-string value and
passes other strings through; and this one rule is what every positional
field of a mapped Company or Partner goes through. -/
theorem alwaysStrOrNone_rule_uniform :
    (∀ s : String, alwaysStrOrNone (.pyStr s) = if s = "None" ∨ s = "" then none else some s)
    ∧ alwaysStrOrNone .pyNone = none
    ∧ (∀ r : String, alwaysStrOrNone (.other r) = some r)
    ∧ (∀ row cnpj c, formatCompanyData row cnpj = some c →
        (c.identificador_matriz_filial = alwaysStrOrNone (row.getD 3 .pyNone)
         ∧ c.nome_fantasia = alwaysStrOrNone (row.getD 4 .pyNone)
         ∧ c.situacao_cadastral = alwaysStrOrNone (row.getD 5 .pyNone)
         ∧ c.data_situacao_cadastral = alwaysStrOrNone (row.getD 6 .pyNone)
         ∧ c.motivo_situacao_cadastral = alwaysStrOrNone (row.getD 7 .pyNone)
         ∧ c.nome_cidade_exterior = alwaysStrOrNone (row.getD 8 .pyNone)
         ∧ c.data_inicio_atividade = alwaysStrOrNone (row.getD 9 .pyNone)
         ∧ c.cnae_fiscal_secundario = alwaysStrOrNone (row.getD 10 .pyNone)
         ∧ c.tipo_logradouro = alwaysStrOrNone (row.getD 11 .pyNone)
         ∧ c.logradouro = alwaysStrOrNone (row.getD 12 .pyNone)
         ∧ c.numero = alwaysStrOrNone (row.getD 13 .pyNone)
         ∧ c.complemento = alwaysStrOrNone (row.getD 14 .pyNone)
         ∧ c.bairro = alwaysStrOrNone (row.getD 15 .pyNone)
         ∧ c.cep = alwaysStrOrNone (row.getD 16 .pyNone)
         ∧ c.uf = alwaysStrOrNone (row.getD 17 .pyNone)
         ∧ c.ddd_telefone_1 = alwaysStrOrNone (row.getD 18 .pyNone)
         ∧ c.ddd_telefone_2 = alwaysStrOrNone (row.getD 19 .pyNone)
         ∧ c.ddd_telefone_fax = alwaysStrOrNone (row.getD 20 .pyNone)
         ∧ c.correio_eletronico = alwaysStrOrNone (row.getD 21 .pyNone)
         ∧ c.situacao_especial = alwaysStrOrNone (row.getD 22 .pyNone)
         ∧ c.data_situacao_especial = alwaysStrOrNone (row.getD 23 .pyNone)
         ∧ c.pais = alwaysStrOrNone (row.getD 24 .pyNone)
         ∧ c.municipio = alwaysStrOrNone (row.getD 25 .pyNone)
         ∧ c.razao_social = alwaysStrOrNone (row.getD 26 .pyNone)
         ∧ c.natureza_juridica = alwaysStrOrNone (row.getD 27 .pyNone)
         ∧ c.qualificacao_do_responsavel = alwaysStrOrNone (row.getD 28 .pyNone)
         ∧ c.capital_social = alwaysStrOrNone (row.getD 29 .pyNone)
         ∧ c.porte = alwaysStrOrNone (row.getD 30 .pyNone)
         ∧ c.ente_federativo_responsavel = alwaysStrOrNone (row.getD 31 .pyNone)
         ∧ c.opcao_pelo_simples = alwaysStrOrNone (row.getD 32 .pyNone)
         ∧ c.data_opcao_pelo_simples = alwaysStrOrNone (row.getD 33 .pyNone)
         ∧ c.data_exclusao_pelo_simples = alwaysStrOrNone (row.getD 34 .pyNone)
         ∧ c.opcao_pelo_mei = alwaysStrOrNone (row.getD 35 .pyNone)
         ∧ c.data_opcao_pelo_mei = alwaysStrOrNone (row.getD 36 .pyNone)
         ∧ c.data_exclusao_pelo_mei = alwaysStrOrNone (row.getD 37 .pyNone)
         ∧ c.cnae = alwaysStrOrNone (row.getD 38 .pyNone)))
    ∧ (∀ row cnpj p, formatPartnerData row cnpj = some p →
        (p.identificador_socio = alwaysStrOrNone (row.getD 1 .pyNone)
         ∧ p.razao_social = alwaysStrOrNone (row.getD 2 .pyNone)
         ∧ p.cnpj_cpf_socio = alwaysStrOrNone (row.getD 3 .pyNone)
         ∧ p.qualificacao_socio = alwaysStrOrNone (row.getD 4 .pyNone)
         ∧ p.data_entrada_sociedade = alwaysStrOrNone (row.getD 5 .pyNone)
         ∧ p.pais_socio_estrangeiro = alwaysStrOrNone (row.getD 6 .pyNone)
         ∧ p.numero_cpf_representante_legal = alwaysStrOrNone (row.getD 7 .pyNone)
         ∧ p.nome_representante_legal = alwaysStrOrNone (row.getD 8 .pyNone)
         ∧ p.qualificacao_representante_legal = alwaysStrOrNone (row.getD 9 .pyNone)
         ∧ p.faixa_etaria = alwaysStrOrNone (row.getD 10 .pyNone))) := by
  refine ⟨fun s => rfl, rfl, fun r => rfl, ?_, ?_⟩
  · intro row cnpj c h
    unfold formatCompanyData at h
    by_cases hlen : 39 ≤ row.length
    · rw [if_pos hlen] at h
      injection h with h
      subst h
      repeat' apply And.intro
      all_goals exact getD_map_of_lt alwaysStrOrNone row _ PyValue.pyNone (by omega)
    · rw [if_neg hlen] at h
      exact absurd h (by simp)
  · intro row cnpj p h
    unfold formatPartnerData at h
    by_cases hlen : 11 ≤ row.length
    · rw [if_pos hlen] at h
      injection h with h
      subst h
      repeat' apply And.intro
      all_goals exact getD_map_of_lt alwaysStrOrNone row _ PyValue.pyNone (by omega)
    · rw [if_neg hlen] at h
      exact absurd h (by simp)

/-- Witness for C6: a concrete 39-entry row mapped to a Company whose
field 3 is the uniform coercion of the row's entry 3. -/
theorem alwaysStrOrNone_rule_uniform_witness :
    ∃ c, formatCompanyData (List.replicate 39 (PyValue.pyStr "v")) [] = some c
      ∧ c.identificador_matriz_filial
          = alwaysStrOrNone ((List.replicate 39 (PyValue.pyStr "v")).getD 3 PyValue.pyNone) :=
  ⟨companyOf (List.replicate 39 (PyValue.pyStr "v")) [], rfl,
    (alwaysStrOrNone_rule_uniform.2.2.2.1 (List.replicate 39 (PyValue.pyStr "v")) []
      (companyOf (List.replicate 39 (PyValue.pyStr "v")) []) rfl).1⟩

/-- C3: `get_company` raises `InvalidCNPJException` exactly when the
identifier is invalid, and then without consulting the row source (any
two row sources give the same outcome); on a valid identifier it returns
`none` for zero rows and otherwise maps only the first returned row. -/
theorem getCompany_spec (sel sel' : CompanyQuery → List (List PyValue)) (cnpj : List Char) :
    (isValidCnpj cnpj = false →
       getCompany sel cnpj = .error .invalidCNPJ
       ∧ getCompany sel cnpj = getCompany sel' cnpj)
    ∧ (getCompany sel cnpj = .error .invalidCNPJ → isValidCnpj cnpj = false)
    ∧ (isValidCnpj cnpj = true →
        (sel (companyQueryData cnpj) = [] → getCompany sel cnpj = .ok none)
        ∧ (∀ r rest, sel (companyQueryData cnpj) = r :: rest →
            getCompany sel cnpj =
              match formatCompanyData r cnpj with
              | some c => .ok (some c)
              | none => .error .rowIndexError)) := by
  refine ⟨?_, ?_, ?_⟩
  · intro hv
    have h1 : getCompany sel cnpj = .error .invalidCNPJ := by
      simp only [getCompany]
      rw [if_pos (by simp [hv])]
    have h2 : getCompany sel' cnpj = .error .invalidCNPJ := by
      simp only [getCompany]
      rw [if_pos (by simp [hv])]
    exact ⟨h1, h1.trans h2.symm⟩
  · intro h
    by_contra hv
    have hv' : isValidCnpj cnpj = true := by
      cases hb : isValidCnpj cnpj
      · exact absurd hb hv
      · rfl
    simp only [getCompany] at h
    rw [if_neg (by simp [hv'])] at h
    cases hsel : sel (companyQueryData cnpj) with
    | nil =>
      rw [hsel] at h
      simp at h
    | cons r rest =>
      rw [hsel] at h
      have h' : (match formatCompanyData r cnpj with
          | some c => Except.ok (some c)
          | none => Except.error LookupError.rowIndexError) =
          (Except.error LookupError.invalidCNPJ : Except LookupError (Option Company)) := h
      cases hf : formatCompanyData r cnpj with
      | some c =>
        rw [hf] at h'
        simp at h'
      | none =>
        rw [hf] at h'
        simp at h'
  · intro hv
    constructor
    · intro hsel
      simp only [getCompany]
      rw [if_neg (by simp [hv]), hsel]
    · intro r rest hsel
      simp only [getCompany]
      rw [if_neg (by simp [hv]), hsel]

/-- Witness for C3: a valid identifier with an empty row source yields
`none`, not an error. -/
theorem getCompany_spec_witness :
    getCompany (fun _ => []) ("11222333000181".toList) = .ok none :=
  ((getCompany_spec (fun _ => []) (fun _ => []) ("11222333000181".toList)).2.2
    (by decide)).1 rfl

theorem formatAllPartners_all_some (cnpj : List Char) (rows : List (List PyValue))
    (h : ∀ r ∈ rows, 11 ≤ r.length) :
    formatAllPartners cnpj rows = some (rows.map (fun r => partnerOf r cnpj)) := by
  induction rows with
  | nil => rfl
  | cons r rs ih =>
    have hr : 11 ≤ r.length := h r (by simp)
    have hrest := ih (fun x hx => h x (by simp [hx]))
    simp only [formatAllPartners, hrest, formatPartnerData, if_pos hr, List.map_cons]

theorem formatAllPartners_length (cnpj : List Char) (rows : List (List PyValue))
    (ps : List Partner) (h : formatAllPartners cnpj rows = some ps) :
    ps.length = rows.length := by
  induction rows generalizing ps with
  | nil =>
    simp only [formatAllPartners, Option.some.injEq] at h
    subst h
    rfl
  | cons r rs ih =>
    simp only [formatAllPartners] at h
    cases hf : formatPartnerData r cnpj with
    | none =>
      rw [hf] at h
      simp at h
    | some p =>
      rw [hf] at h
      cases hrest : formatAllPartners cnpj rs with
      | none =>
        rw [hrest] at h
        simp at h
      | some ps' =>
        rw [hrest] at h
        simp only [Option.some.injEq] at h
        subst h
        simp [ih ps' hrest]

/-- C7: on a valid identifier `get_partners` consults the row source only
through the base-only key (identifiers sharing a base produce the same
query, and the outcome depends only on the rows at that key), returns one
mapped Partner per returned row in row order, and pairs the list with a
count equal to its length. -/
theorem getPartners_spec (sel : PartnersQuery → List (List PyValue)) (cnpj : List Char)
    (hv : isValidCnpj cnpj = true) :
    (∀ sel' : PartnersQuery → List (List PyValue),
        sel' (partnersQueryData cnpj) = sel (partnersQueryData cnpj) →
        getPartners sel' cnpj = getPartners sel cnpj)
    ∧ (∀ cnpj' : List Char, (splitCnpj cnpj').1 = (splitCnpj cnpj).1 →
        partnersQueryData cnpj' = partnersQueryData cnpj)
    ∧ (∀ rows, sel (partnersQueryData cnpj) = rows → (∀ r ∈ rows, 11 ≤ r.length) →
        getPartners sel cnpj = .ok (rows.length, rows.map (fun r => partnerOf r cnpj)))
    ∧ (∀ n ps, getPartners sel cnpj = .ok (n, ps) → n = ps.length) := by
  refine ⟨?_, ?_, ?_, ?_⟩
  · intro sel' hagree
    simp only [getPartners]
    rw [if_neg (by simp [hv]), if_neg (by simp [hv]), hagree]
  · intro cnpj' hbase
    simp only [partnersQueryData]
    rw [hbase]
  · intro rows hsel hlen
    simp only [getPartners]
    rw [if_neg (by simp [hv]), hsel, formatAllPartners_all_some cnpj rows hlen]
  · intro n ps h
    simp only [getPartners] at h
    rw [if_neg (by simp [hv])] at h
    cases hfa : formatAllPartners cnpj (sel (partnersQueryData cnpj)) with
    | none =>
      rw [hfa] at h
      simp at h
    | some ps' =>
      rw [hfa] at h
      simp only [Except.ok.injEq, Prod.mk.injEq] at h
      obtain ⟨hn, hps⟩ := h
      rw [← hn, ← hps]
      exact (formatAllPartners_length cnpj _ ps' hfa).symm

/-- Witness for C7: three returned rows yield the count 3 and the three
mapped partners in row order. -/
theorem getPartners_spec_witness :
    getPartners
        (fun _ => [List.replicate 11 (PyValue.pyStr "a"),
          List.replicate 11 (PyValue.pyStr "b"),
          List.replicate 11 (PyValue.pyStr "c")]) ("11222333000181".toList)
      = .ok (3,
          [partnerOf (List.replicate 11 (PyValue.pyStr "a")) ("11222333000181".toList),
           partnerOf (List.replicate 11 (PyValue.pyStr "b")) ("11222333000181".toList),
           partnerOf (List.replicate 11 (PyValue.pyStr "c")) ("11222333000181".toList)]) := by
  have h := ((getPartners_spec
      (fun _ => [List.replicate 11 (PyValue.pyStr "a"),
        List.replicate 11 (PyValue.pyStr "b"),
        List.replicate 11 (PyValue.pyStr "c")]) ("11222333000181".toList) (by decide)).2.2.1
    [List.replicate 11 (PyValue.pyStr "a"), List.replicate 11 (PyValue.pyStr "b"),
      List.replicate 11 (PyValue.pyStr "c")] rfl (by decide))
  simpa using h

theorem mem_cnpjOnlyDigits_isDigit (s : List Char) (c : Char)
    (h : c ∈ cnpjOnlyDigits s) : c.isDigit = true := by
  simp only [cnpjOnlyDigits] at h
  by_cases hf : s.filter Char.isDigit = []
  · rw [if_pos hf, hf] at h
    simp at h
  · rw [if_neg hf] at h
    simp only [zfill] at h
    rcases List.mem_append.mp h with h1 | h2
    · rw [List.eq_of_mem_replicate h1]
      decide
    · exact List.of_mem_filter h2

/-- C8: on any input that normalizes to exactly 14 digits,
`_format_full_cnpj` produces exactly the `NN.NNN.NNN/NNNN-NN` pattern
over those digits; in particular `get_company` on `11222333000181` with a
one-row source yields a Company whose `cnpj_completo` is
`11.222.333/0001-81`. -/
theorem formatFullCnpj_pattern :
    (∀ s : List Char, 1 ≤ countDigits s → countDigits s ≤ 14 →
      ∃ a b c e f : List Char,
        formatFullCnpj s = a ++ ['.'] ++ b ++ ['.'] ++ c ++ ['/'] ++ e ++ ['-'] ++ f
        ∧ a.length = 2 ∧ b.length = 3 ∧ c.length = 3 ∧ e.length = 4 ∧ f.length = 2
        ∧ (∀ ch ∈ a ++ b ++ c ++ e ++ f, ch.isDigit = true))
    ∧ (∃ comp,
        getCompany (fun _ => [List.replicate 39 PyValue.pyNone]) ("11222333000181".toList)
          = .ok (some comp)
        ∧ comp.cnpj_completo = "11.222.333/0001-81".toList) := by
  constructor
  · intro s h1 h14
    have hf : s.filter Char.isDigit ≠ [] := by
      intro hc
      unfold countDigits at h1
      rw [hc] at h1
      simp at h1
    have hlen : (cnpjOnlyDigits s).length = 14 := by
      unfold countDigits at h14
      simp [cnpjOnlyDigits, hf, zfill_length]
      omega
    refine ⟨(cnpjOnlyDigits s).take 2, ((cnpjOnlyDigits s).drop 2).take 3,
      ((cnpjOnlyDigits s).drop 5).take 3, ((cnpjOnlyDigits s).drop 8).take 4,
      (cnpjOnlyDigits s).drop 12, rfl, ?_, ?_, ?_, ?_, ?_, ?_⟩
    · rw [List.length_take]
      omega
    · rw [List.length_take, List.length_drop]
      omega
    · rw [List.length_take, List.length_drop]
      omega
    · rw [List.length_take, List.length_drop]
      omega
    · rw [List.length_drop]
      omega
    · intro ch hch
      simp only [List.mem_append] at hch
      rcases hch with ((((h | h) | h) | h) | h)
      · exact mem_cnpjOnlyDigits_isDigit s ch (List.mem_of_mem_take h)
      · exact mem_cnpjOnlyDigits_isDigit s ch (List.mem_of_mem_drop (List.mem_of_mem_take h))
      · exact mem_cnpjOnlyDigits_isDigit s ch (List.mem_of_mem_drop (List.mem_of_mem_take h))
      · exact mem_cnpjOnlyDigits_isDigit s ch (List.mem_of_mem_drop (List.mem_of_mem_take h))
      · exact mem_cnpjOnlyDigits_isDigit s ch (List.mem_of_mem_drop h)
  · refine ⟨companyOf (List.replicate 39 PyValue.pyNone) ("11222333000181".toList), ?_, ?_⟩
    · rfl
    · decide

/-- Witness for C8 at the identifier `11222333000181`. -/
theorem formatFullCnpj_pattern_witness :
    ∃ a b c e f : List Char,
      formatFullCnpj ("11222333000181".toList)
          = a ++ ['.'] ++ b ++ ['.'] ++ c ++ ['/'] ++ e ++ ['-'] ++ f
      ∧ a.length = 2 ∧ b.length = 3 ∧ c.length = 3 ∧ e.length = 4 ∧ f.length = 2
      ∧ (∀ ch ∈ a ++ b ++ c ++ e ++ f, ch.isDigit = true) :=
  formatFullCnpj_pattern.1 ("11222333000181".toList) (by decide) (by decide)

end CnpjDb
